import Mathlib

/-!
Shallow embedding of the d2l-en notebooks' device-placement helpers,
trainer batch preparation, and classification accuracy helpers, together
with theorems settling the specification claims about them.

The notebooks run on top of PyTorch; the number of physically available
GPUs (torch.cuda.device_count()) is ambient state of the machine, so it
is threaded through the embedding as an explicit natural-number argument
named numGpus / available.  Tensor numeric contents are modelled over ℚ
(exact arithmetic).
-/

/-- A compute device handle: the CPU, or the i-th GPU (0-indexed),
mirroring torch.device('cpu') / torch.device('cuda:i'). -/
inductive Device where
  | cpu : Device
  | gpu (i : Nat) : Device
deriving DecidableEq, Repr

/-- Embeds def cpu(): return torch.device('cpu'). -/
def cpu : Device := Device.cpu

/-- Embeds def gpu(i=0): return torch.device(f'cuda:..i..').  Constructing
the handle does not validate availability. -/
def gpu (i : Nat) : Device := Device.gpu i

/-- Embeds try_gpu(i): if num_gpus() >= i + 1: return gpu(i); return cpu().
The ambient num_gpus() is the explicit first argument. -/
def try_gpu (numGpus i : Nat) : Device :=
  if numGpus ≥ i + 1 then gpu i else cpu

/-- Embeds try_all_gpus(): return [gpu(i) for i in range(num_gpus())].
Note the body has no fallback branch, although the source docstring says
"Return all available GPUs, or [cpu(), ], if no GPU exists." -/
def try_all_gpus (numGpus : Nat) : List Device :=
  (List.range numGpus).map gpu

/-- An array-like value: its resident device together with its (flattened)
numeric contents, modelled over exact rationals. -/
structure Tensor where
  device : Device
  data : List ℚ
deriving DecidableEq, Repr

/-- The error raised by the runtime engine when an operation combines
array-like values resident on different devices. -/
inductive TensorError where
  | deviceMismatch (d1 d2 : Device) : TensorError
deriving DecidableEq, Repr

/-- Modelled from the spec: the framework's elementwise addition X + Y
(the tensor arithmetic itself lives in PyTorch, outside src/).  Per the
spec, combining two array-like values on differing devices is rejected
with an error rather than recovered by an automatic copy, and on the same
device it succeeds producing a value on that shared device. -/
def Tensor.add (x y : Tensor) : Except TensorError Tensor :=
  if x.device = y.device then
    Except.ok (Tensor.mk x.device (List.zipWith (· + ·) x.data y.data))
  else
    Except.error (TensorError.deviceMismatch x.device y.device)

namespace d2l

/-- Modelled from the spec: the d2l library's relocation primitive
d2l.to(a, device) (defined in the d2l package, not under src/), and
likewise Z.cuda(i): a copy when source and destination devices differ,
and a no-op returning the same value when they already match. -/
def toDevice (a : Tensor) (d : Device) : Tensor :=
  if a.device = d then a else Tensor.mk d a.data

end d2l

/-- The Trainer state set up by Trainer.__init__ of the GPUs notebook:
save_hyperparameters() stores the three constructor arguments, and
self.gpus is computed from them. -/
structure Trainer where
  max_epochs : Nat
  num_gpus : Nat
  gradient_clip_val : ℚ
  gpus : List Device
deriving DecidableEq, Repr

/-- Embeds Trainer.__init__(max_epochs, num_gpus=0, gradient_clip_val=0):
self.gpus = [d2l.gpu(i) for i in range(min(num_gpus, d2l.num_gpus()))].
The ambient d2l.num_gpus() is the explicit argument available. -/
def Trainer.init (available max_epochs num_gpus : Nat)
    (gradient_clip_val : ℚ) : Trainer :=
  Trainer.mk max_epochs num_gpus gradient_clip_val
    ((List.range (min num_gpus available)).map gpu)

/-- Embeds Trainer.prepare_batch(batch): if self.gpus, relocate every
element of the batch to self.gpus[0]; otherwise return the batch
unchanged.  The embedding is a pure function: it has no effect beyond
the returned batch. -/
def Trainer.prepare_batch (self : Trainer) (batch : List Tensor) :
    List Tensor :=
  match self.gpus with
  | [] => batch
  | g :: _ => batch.map (fun a => d2l.toDevice a g)

/-- The prediction argument y_hat of the accuracy helpers, dispatched on
its shape as the Python code does with len(y_hat.shape) and shape[1]: a
flat sequence of hard labels, or a two-dimensional score array (a list of
rows, each row the class scores of one example; tensors are rectangular,
so shape[1] is read off the first row). -/
inductive ScoreInput where
  | flat (xs : List ℚ) : ScoreInput
  | matrix (rows : List (List ℚ)) : ScoreInput
deriving DecidableEq, Repr

/-- Helper for argmax: scans the remaining entries, tracking the index of
the best value seen so far; a later entry replaces the best only when
strictly greater, giving the first-maximum convention. -/
def argmaxAux : List ℚ → Nat → Nat → ℚ → Nat
  | [], _, best, _ => best
  | x :: rest, idx, best, bestVal =>
      if bestVal < x then argmaxAux rest (idx + 1) idx x
      else argmaxAux rest (idx + 1) best bestVal

/-- Embeds d2l.argmax along one row: the index of the largest entry, ties
broken by lowest index.  The empty row gets index 0 (unreachable for
tensors with a positive class dimension). -/
def argmax : List ℚ → Nat
  | [] => 0
  | x :: rest => argmaxAux rest 1 0 x

/-- Embeds the elementwise comparison astype(y_hat, y.dtype) == y followed
by astype(cmp, float32): a 0/1-valued sequence, one entry per position.
The dtype casts are the identity in the exact-rational model. -/
def cmpEq (preds y : List ℚ) : List ℚ :=
  List.zipWith (fun a b => if a = b then (1 : ℚ) else 0) preds y

/-- Embeds d2l.reduce_mean over a flat sequence. -/
def listMean (xs : List ℚ) : ℚ :=
  xs.sum / (xs.length : ℚ)

/-- Embeds the broadcast comparison taken when a two-dimensional y_hat of
shape (n, 1) is compared against a flat y of shape (n,) without argmax
(the branch of Classification.accuracy whose guard fails on shape[1] = 1):
numpy/torch broadcasting compares entry (i, j) as y_hat[i][0] == y[j]. -/
def broadcastCmp (rows : List (List ℚ)) (y : List ℚ) : List ℚ :=
  (rows.map (fun r => y.map (fun b => if r.headD 0 = b then (1 : ℚ) else 0))).flatten

/-- Embeds Classification.accuracy(self, y_hat, y) of the classification
module (part_001): if len(y_hat.shape) > 1 and y_hat.shape[1] > 1, reduce
y_hat by argmax along axis 1; then compare elementwise with y (dtype cast
is the identity here) and return the mean of the 0/1 comparison. -/
def Classification.accuracy (y_hat : ScoreInput) (y : List ℚ) : ℚ :=
  match y_hat with
  | ScoreInput.flat xs => listMean (cmpEq xs y)
  | ScoreInput.matrix rows =>
      if 1 < (rows.headD []).length then
        listMean (cmpEq (rows.map (fun r => (argmax r : ℚ))) y)
      else
        listMean (broadcastCmp rows y)

/-- Embeds the reshape d2l.reshape(Y_hat, (-1, Y_hat.shape[-1])) of
Classifier.accuracy: a two-dimensional array keeps its rows; a flat
sequence of length n becomes the single row of an array of shape (1, n). -/
def Classifier.reshapeLast (y_hat : ScoreInput) : List (List ℚ) :=
  match y_hat with
  | ScoreInput.flat xs => [xs]
  | ScoreInput.matrix rows => rows

/-- Embeds the compare value of Classifier.accuracy(self, Y_hat, Y,
averaged) of classification.ipynb, which the function returns when
averaged=False: reshape Y_hat to (-1, shape[-1]), take argmax along axis
1 unconditionally, cast to Y.dtype (identity here) and compare against Y
reshaped flat, as a 0/1 sequence. -/
def Classifier.accuracyCompare (y_hat : ScoreInput) (y : List ℚ) : List ℚ :=
  cmpEq ((Classifier.reshapeLast y_hat).map (fun r => (argmax r : ℚ))) y

/-- Embeds Classifier.accuracy with the default averaged=True: the mean
of the compare sequence. -/
def Classifier.accuracy (y_hat : ScoreInput) (y : List ℚ) : ℚ :=
  listMean (Classifier.accuracyCompare y_hat y)

/-- The concrete multi-class score matrix of claim C2: four rows of two
class scores whose row-wise maxima occur at indices [0, 1, 0, 0]. -/
def exRows : List (List ℚ) := [[2, 1], [1, 2], [2, 1], [2, 1]]

/-- The concrete ground-truth labels of claim C2. -/
def exY : List ℚ := [0, 1, 1, 0]

/-- Modelled from the spec: a numeric dataframe column as read by pandas,
one optional rational per row, None standing for a missing (NaN) entry
(pandas itself is library code, not under src/). -/
abbrev Column : Type := List (Option ℚ)

/-- Sum of the non-missing entries of a column (pandas sums skipping NaN). -/
def colSum (col : Column) : ℚ :=
  (col.filterMap id).sum

/-- Number of non-missing entries of a column. -/
def presentCount (col : Column) : Nat :=
  (col.filterMap id).length

/-- Number of missing entries of a column. -/
def missingCount (col : Column) : Nat :=
  (col.filter Option.isNone).length

/-- Modelled from the spec: pandas inputs.mean() on one column, the
arithmetic mean of the non-missing entries. -/
def colMean (col : Column) : ℚ :=
  colSum col / (presentCount col : ℚ)

/-- Modelled from the spec: pandas inputs.fillna(v) on one column, every
missing entry replaced by v and the rest kept. -/
def fillna (col : Column) (v : ℚ) : List ℚ :=
  col.map (fun x => x.getD v)

/-- C4: for every i ≥ 0, try_gpu(i) returns gpu(i) if i < num_gpus() at
call time and cpu() otherwise; being a total function of its arguments it
never fails. -/
theorem C4_try_gpu_spec (n i : Nat) :
    try_gpu n i = if i < n then gpu i else cpu := by
  unfold try_gpu
  by_cases h : i < n
  · rw [if_pos (by omega), if_pos h]
  · rw [if_neg (by omega), if_neg h]

/-- C1: evaluation of try_all_gpus at the failing input num_gpus() = 0.
The claim (and the function's own docstring) promise the single-element
list [cpu()] when no GPU is available, but the code returns the empty
list, and for positive counts returns gpu(0..n-1) as claimed. -/
theorem C1_try_all_gpus_no_gpu :
    try_all_gpus 0 = [] ∧
    try_all_gpus 0 ≠ [cpu] ∧
    try_all_gpus 2 = [gpu 0, gpu 1] := by
  refine ⟨rfl, ?_, rfl⟩
  decide

/-- C8: relocating a value already resident on the destination device
returns the value itself (no copy), and relocating to a different device
returns an equal-content value tagged with the new device. -/
theorem C8_relocation (a : Tensor) (d : Device) :
    (a.device = d → d2l.toDevice a d = a) ∧
    (a.device ≠ d → (d2l.toDevice a d).device = d ∧ (d2l.toDevice a d).data = a.data) := by
  constructor
  · intro h
    simp [d2l.toDevice, h]
  · intro h
    simp [d2l.toDevice, h]

/-- Witness for C8 at a concrete tensor and devices: relocation to the
current device is the identity, and relocation to gpu 1 retags the value
keeping its contents. -/
theorem C8_relocation_witness :
    (d2l.toDevice (Tensor.mk cpu [1, 2]) cpu = Tensor.mk cpu [1, 2]) ∧
    ((d2l.toDevice (Tensor.mk cpu [1, 2]) (gpu 1)).device = gpu 1 ∧
      (d2l.toDevice (Tensor.mk cpu [1, 2]) (gpu 1)).data = [1, 2]) :=
  ⟨(C8_relocation (Tensor.mk cpu [1, 2]) cpu).1 rfl,
   (C8_relocation (Tensor.mk cpu [1, 2]) (gpu 1)).2 (by decide)⟩

/-- C7: combining two array-like values on differing devices fails
immediately with a device-mismatch error (never recovered by an automatic
copy), and combining two on the same device succeeds producing a value
resident on that shared device. -/
theorem C7_cross_device_add (x y : Tensor) :
    (x.device ≠ y.device →
      x.add y = Except.error (TensorError.deviceMismatch x.device y.device)) ∧
    (x.device = y.device →
      ∃ z, x.add y = Except.ok z ∧ z.device = x.device) := by
  constructor
  · intro h
    simp [Tensor.add, h]
  · intro h
    exact ⟨Tensor.mk x.device (List.zipWith (· + ·) x.data y.data),
      by simp [Tensor.add, h], rfl⟩

/-- Witness for C7 at concrete tensors: adding across cpu and gpu 0 fails
with the mismatch error; adding two gpu-0 tensors yields a gpu-0 value. -/
theorem C7_cross_device_add_witness :
    ((Tensor.mk cpu [1]).add (Tensor.mk (gpu 0) [2]) =
      Except.error (TensorError.deviceMismatch cpu (gpu 0))) ∧
    (∃ z, (Tensor.mk (gpu 0) [1]).add (Tensor.mk (gpu 0) [2]) =
      Except.ok z ∧ z.device = gpu 0) :=
  ⟨(C7_cross_device_add (Tensor.mk cpu [1]) (Tensor.mk (gpu 0) [2])).1
      (by decide),
   (C7_cross_device_add (Tensor.mk (gpu 0) [1]) (Tensor.mk (gpu 0) [2])).2
      rfl⟩

/-- C5: prepare_batch with an empty configured device list returns the
batch unchanged; with a nonempty list it returns the batch with every
element relocated to the first configured device (device retagged,
contents preserved).  Being a pure function it has no side effect beyond
the returned batch. -/
theorem C5_prepare_batch (t : Trainer) (batch : List Tensor) :
    (t.gpus = [] → t.prepare_batch batch = batch) ∧
    (∀ g gs, t.gpus = g :: gs →
      (t.prepare_batch batch).map Tensor.device =
        List.replicate batch.length g ∧
      (t.prepare_batch batch).map Tensor.data = batch.map Tensor.data) := by
  constructor
  · intro h
    simp [Trainer.prepare_batch, h]
  · intro g gs h
    constructor
    · simp only [Trainer.prepare_batch, h]
      induction batch with
      | nil => rfl
      | cons a rest ih =>
          simp only [List.map_cons, List.length_cons, List.replicate_succ,
            ih, List.cons.injEq, and_true]
          by_cases hd : a.device = g <;> simp [d2l.toDevice, hd]
    · simp only [Trainer.prepare_batch, h, List.map_map]
      refine List.map_congr_left ?_
      intro a _
      by_cases hd : a.device = g <;> simp [d2l.toDevice, hd]

/-- Witness for C5 at a concrete trainer and batch: the empty device
list leaves the batch unchanged, and a device list headed by gpu 0
retags both elements to gpu 0 preserving contents. -/
theorem C5_prepare_batch_witness :
    ((Trainer.mk 1 0 0 []).prepare_batch [Tensor.mk cpu [1]] =
      [Tensor.mk cpu [1]]) ∧
    (((Trainer.mk 1 1 0 [gpu 0]).prepare_batch
        [Tensor.mk cpu [1], Tensor.mk (gpu 0) [2]]).map Tensor.device =
      List.replicate 2 (gpu 0)) :=
  ⟨(C5_prepare_batch (Trainer.mk 1 0 0 []) [Tensor.mk cpu [1]]).1 rfl,
   ((C5_prepare_batch (Trainer.mk 1 1 0 [gpu 0])
      [Tensor.mk cpu [1], Tensor.mk (gpu 0) [2]]).2 (gpu 0) [] rfl).1⟩

/-- C10: after Trainer.__init__, self.gpus is exactly
[gpu 0, ..., gpu (min num_gpus available - 1)]; it never contains the
CPU handle; its length never exceeds the number of available GPUs; and
with the default num_gpus = 0 it is empty, so prepare_batch is the
identity on every batch. -/
theorem C10_trainer_gpus (available max_epochs num_gpus : Nat)
    (clip : ℚ) (batch : List Tensor) :
    (Trainer.init available max_epochs num_gpus clip).gpus =
      (List.range (min num_gpus available)).map gpu ∧
    cpu ∉ (Trainer.init available max_epochs num_gpus clip).gpus ∧
    (Trainer.init available max_epochs num_gpus clip).gpus.length ≤
      available ∧
    (Trainer.init available max_epochs 0 clip).prepare_batch batch =
      batch := by
  refine ⟨rfl, ?_, ?_, ?_⟩
  · simp [Trainer.init, cpu, gpu]
  · simp [Trainer.init]
  · simp [Trainer.init, Trainer.prepare_batch]

/-- C3: the accuracy helper of the classification module dispatches on the
shape of its prediction argument: a flat sequence of hard labels is
compared directly against the ground-truth labels, with no argmax
reduction, while a two-dimensional score array with second-axis length
greater than 1 is first reduced to hard predictions by row-wise argmax
(ties to the lowest index) and then compared. -/
theorem C3_accuracy_shape_dispatch (xs y : List ℚ) (rows : List (List ℚ))
    (h : 1 < (rows.headD []).length) :
    Classification.accuracy (ScoreInput.flat xs) y = listMean (cmpEq xs y) ∧
    Classification.accuracy (ScoreInput.matrix rows) y =
      listMean (cmpEq (rows.map (fun r => (argmax r : ℚ))) y) := by
  constructor
  · rfl
  · simp only [Classification.accuracy, if_pos h]

/-- Witness for C3 at concrete inputs: a flat prediction list is compared
as-is, and a 4-row two-class score matrix goes through argmax. -/
theorem C3_accuracy_shape_dispatch_witness :
    Classification.accuracy (ScoreInput.flat [1, 0]) [1, 1] =
      listMean (cmpEq [1, 0] [1, 1]) ∧
    Classification.accuracy (ScoreInput.matrix [[1, 2], [3, 0]]) [1, 1] =
      listMean (cmpEq ([[1, 2], [3, 0]].map (fun r => (argmax r : ℚ))) [1, 1]) :=
  C3_accuracy_shape_dispatch [1, 0] [1, 1] [[1, 2], [3, 0]] (by decide)

/-- C2, counterexample: at the concrete input the claim specifies (labels
[0,1,1,0] and a score matrix with row-wise maxima at [0,1,0,0]), the code
does not return accuracy 0.5, and the unreduced comparison is not
[1,0,0,1]: positions 0, 1 and 3 match, so the accuracy is 3/4. -/
theorem C2_spec_example_refuted :
    exRows.map argmax = [0, 1, 0, 0] ∧
    Classification.accuracy (ScoreInput.matrix exRows) exY ≠ 1 / 2 ∧
    Classifier.accuracy (ScoreInput.matrix exRows) exY ≠ 1 / 2 ∧
    Classifier.accuracyCompare (ScoreInput.matrix exRows) exY ≠ [1, 0, 0, 1] := by
  refine ⟨rfl, ?_, ?_, ?_⟩ <;>
    norm_num [Classification.accuracy, Classifier.accuracy,
      Classifier.accuracyCompare, Classifier.reshapeLast, exRows, exY,
      listMean, cmpEq, argmax, argmaxAux]

/-- C2, amended: for every two-class-or-wider score matrix whose row-wise
maxima occur at indices [0,1,0,0] and ground-truth labels [0,1,1,0], the
reduced accuracy is 3/4 (3 of 4 correct, under both the classification
module's helper and classification.ipynb's helper) and the unreduced
elementwise correctness sequence is [1,1,0,1], order preserved. -/
theorem C2_accuracy_amended (rows : List (List ℚ))
    (hmax : rows.map argmax = [0, 1, 0, 0])
    (hc : 1 < (rows.headD []).length) :
    Classification.accuracy (ScoreInput.matrix rows) exY = 3 / 4 ∧
    Classifier.accuracy (ScoreInput.matrix rows) exY = 3 / 4 ∧
    Classifier.accuracyCompare (ScoreInput.matrix rows) exY = [1, 1, 0, 1] := by
  have hq : rows.map (fun r => (argmax r : ℚ)) = [0, 1, 0, 0] := by
    have h4 := congrArg (List.map (fun n : ℕ => (n : ℚ))) hmax
    rw [List.map_map] at h4
    simpa using h4
  have h2 : Classifier.accuracyCompare (ScoreInput.matrix rows) exY =
      cmpEq [0, 1, 0, 0] exY := by
    simp only [Classifier.accuracyCompare, Classifier.reshapeLast, hq]
  refine ⟨?_, ?_, ?_⟩
  · simp only [Classification.accuracy, if_pos hc, hq]
    norm_num [listMean, cmpEq, exY]
  · simp only [Classifier.accuracy, h2]
    norm_num [listMean, cmpEq, exY]
  · rw [h2]
    norm_num [cmpEq, exY]

/-- Witness for the amended C2 at the concrete score matrix exRows. -/
theorem C2_accuracy_amended_witness :
    Classification.accuracy (ScoreInput.matrix exRows) exY = 3 / 4 ∧
    Classifier.accuracy (ScoreInput.matrix exRows) exY = 3 / 4 ∧
    Classifier.accuracyCompare (ScoreInput.matrix exRows) exY = [1, 1, 0, 1] :=
  C2_accuracy_amended exRows (by decide) (by decide)

/-- C6: on every two-dimensional score array whose second axis is longer
than 1, with a flat label sequence of matching row count, the
classification.ipynb helper (reshape then unconditional argmax) and the
classification-module helper (argmax under its shape guard) compute the
same averaged accuracy. -/
theorem C6_accuracy_equivalence (rows : List (List ℚ)) (y : List ℚ)
    (hc : 1 < (rows.headD []).length) (hl : y.length = rows.length) :
    Classifier.accuracy (ScoreInput.matrix rows) y =
      Classification.accuracy (ScoreInput.matrix rows) y := by
  simp only [Classifier.accuracy, Classifier.accuracyCompare,
    Classifier.reshapeLast, Classification.accuracy, if_pos hc]

/-- Witness for C6 at a concrete two-column matrix and labels. -/
theorem C6_accuracy_equivalence_witness :
    Classifier.accuracy (ScoreInput.matrix [[1, 2], [3, 0]]) [1, 0] =
      Classification.accuracy (ScoreInput.matrix [[1, 2], [3, 0]]) [1, 0] :=
  C6_accuracy_equivalence [[1, 2], [3, 0]] [1, 0] (by decide) rfl

/-- Replacing every entry of a column keeps its row count. -/
theorem fillna_length (col : Column) (v : ℚ) :
    (fillna col v).length = col.length := by
  simp [fillna]

/-- The non-missing and missing entries of a column partition its rows. -/
theorem present_add_missing (col : Column) :
    presentCount col + missingCount col = col.length := by
  induction col with
  | nil => rfl
  | cons x rest ih =>
      cases x with
      | none =>
          have h1 : presentCount ((none : Option ℚ) :: rest) =
              presentCount rest := rfl
          have h2 : missingCount ((none : Option ℚ) :: rest) =
              missingCount rest + 1 := rfl
          rw [h1, h2, List.length_cons]
          omega
      | some a =>
          have h1 : presentCount (some a :: rest) =
              presentCount rest + 1 := rfl
          have h2 : missingCount (some a :: rest) = missingCount rest := rfl
          rw [h1, h2, List.length_cons]
          omega

/-- Filling the missing entries of a column with v adds one copy of v per
missing entry to the sum of the non-missing entries. -/
theorem fillna_sum (col : Column) (v : ℚ) :
    (fillna col v).sum = colSum col + (missingCount col : ℚ) * v := by
  induction col with
  | nil => simp [fillna, colSum, missingCount]
  | cons x rest ih =>
      cases x with
      | none =>
          have h1 : colSum ((none : Option ℚ) :: rest) = colSum rest := rfl
          have h2 : missingCount ((none : Option ℚ) :: rest) =
              missingCount rest + 1 := rfl
          have h3 : fillna ((none : Option ℚ) :: rest) v =
              v :: fillna rest v := rfl
          rw [h3, List.sum_cons, ih, h1, h2]
          push_cast
          ring
      | some a =>
          have h0 : List.filterMap id (some a :: rest) =
              a :: List.filterMap id rest := rfl
          have h1 : colSum (some a :: rest) = a + colSum rest := by
            show (List.filterMap id (some a :: rest)).sum = a + colSum rest
            rw [h0, List.sum_cons]
            rfl
          have h2 : missingCount (some a :: rest) = missingCount rest := rfl
          have h3 : fillna (some a :: rest) v = a :: fillna rest v := rfl
          rw [h3, List.sum_cons, ih, h1, h2]
          ring

/-- C9: for every numeric column with at least one non-missing entry,
replacing each missing entry with the arithmetic mean of the non-missing
entries leaves the column mean unchanged: the mean over all entries after
imputation equals the mean over the non-missing entries before it. -/
theorem C9_mean_imputation (col : Column) (h : 0 < presentCount col) :
    listMean (fillna col (colMean col)) = colMean col := by
  have hk : (0 : ℚ) < (presentCount col : ℚ) := by exact_mod_cast h
  have hk0 : ((presentCount col : ℚ)) ≠ 0 := ne_of_gt hk
  have hkm : ((presentCount col : ℚ)) + (missingCount col : ℚ) ≠ 0 := by
    have : (0 : ℚ) ≤ (missingCount col : ℚ) := by positivity
    linarith
  unfold listMean
  rw [fillna_sum, fillna_length, ← present_add_missing col]
  unfold colMean
  push_cast
  field_simp
  ring

/-- Witness for C9 at the NumRooms column of house_tiny.csv, [NaN, 2, 4,
NaN]: its non-missing mean is 3, and the imputed column [3, 2, 4, 3] has
mean 3 as well. -/
theorem C9_mean_imputation_witness :
    0 < presentCount [none, some 2, some 4, none] ∧
    colMean [none, some 2, some 4, none] = 3 ∧
    listMean (fillna [none, some 2, some 4, none]
        (colMean [none, some 2, some 4, none])) =
      colMean [none, some 2, some 4, none] :=
  ⟨by decide,
   by
     have h : List.filterMap id [some (2 : ℚ), some 4, none] = [2, 4] := rfl
     norm_num [colMean, colSum, presentCount, h],
   C9_mean_imputation [none, some 2, some 4, none] (by decide)⟩
